import Mathlib

/-
Verification of the baggage-handling simulation core (src/app.py).

The program keeps four session-scoped stores:
  * `baggage_queue`    : a Python list of bag-id strings, mutated by
                         `append(new_bag_id)` and `pop(0)` (FIFO);
  * `misplaced_stack`  : a Python list of bag-id strings, mutated by
                         `append(misplaced_bag_id)` and `pop()` (LIFO);
  * `passenger_db`     : an insertion-ordered dict from passenger key to a
                         record (name, flight, destination, bag_id);
  * `efficiency_data`  : a data frame of (Hour, Bags Processed) rows,
                         extended by `max(Hour) + 1` and a fresh random count.

We embed the stores and the button-handler actions as pure Lean functions.
Randomness (uuid.uuid4 for identifiers, np.random.randint for counts) is
modelled by explicit random-source inputs, following the documented
behaviour of those library calls.
-/

namespace Baggage

/-- Error taxonomy of the simulation core: removal from an empty
container and lookup of an absent passenger key. -/
inductive ErrorKind where
  | EmptyContainer
  | KeyNotFound
deriving DecidableEq, Repr

/-- A passenger record as seeded in `initialize_state`
(src/app.py lines 32-36). -/
structure PassengerRecord where
  name : String
  flight : String
  destination : String
  bag_id : String
deriving DecidableEq, Repr

/-- The whole session state: the four stores kept in
`st.session_state` (src/app.py lines 20-46). The data frame
`efficiency_data` is embedded as its list of (Hour, Bags Processed) rows. -/
structure SessionState where
  baggage_queue : List String
  misplaced_stack : List String
  passenger_db : List (String × PassengerRecord)
  efficiency_data : List (Nat × Nat)
deriving DecidableEq, Repr

/-- The sixteen lowercase hex digit characters used by the textual form
of a UUID. -/
def hexChar (d : Nat) : Char := "0123456789abcdef".toList.getD d 'x'

/-- The `k` most significant hex digits of `n`, most significant first
(zero padded to width `k`). -/
def hexDigits : Nat → Nat → List Char
  | 0, _ => []
  | k + 1, n => hexDigits k (n / 16) ++ [hexChar (n % 16)]

/-- The character list of `str(uuid.uuid4())` for the 128-bit value `n`:
lowercase hex in 8-4-4-4-12 groups separated by hyphens (the documented
textual form of a UUID). -/
def uuidChars (n : Nat) : List Char :=
  hexDigits 8 (n / 16 ^ 24) ++ '-' ::
  (hexDigits 4 (n / 16 ^ 20 % 16 ^ 4) ++ '-' ::
  (hexDigits 4 (n / 16 ^ 16 % 16 ^ 4) ++ '-' ::
  (hexDigits 4 (n / 16 ^ 12 % 16 ^ 4) ++ '-' ::
  hexDigits 12 (n % 16 ^ 12))))

/-- Embeds `get_short_id` (src/app.py lines 15-17):
`str(uuid.uuid4())[:8].upper()`, for the drawn 128-bit value `n`. -/
def get_short_id (n : Nat) : String :=
  String.mk (((uuidChars n).take 8).map Char.toUpper)

/-- A character is upper-case alphanumeric: a decimal digit or an
upper-case letter. -/
def isUpperAlnum (c : Char) : Bool := c.isDigit || c.isUpper

/-- The randomness consumed while seeding and running one session:
`uuids i` is the `i`-th 128-bit value drawn by `uuid.uuid4()`, and
`rands i` the `i`-th raw draw consumed by `np.random.randint`. -/
structure RandomSource where
  uuids : Nat → Nat
  rands : Nat → Nat

/-- Embeds `np.random.randint(lo, hi)` per its documented contract: a uniform
integer in the half-open range [lo, hi), here realised from the raw
draw `r`. -/
def randint (lo hi : Nat) (r : Nat) : Nat := lo + r % (hi - lo)

/-- Embeds `initialize_state` (src/app.py lines 20-46) on a fresh session:
3 generated ids in the queue, 2 in the stack, 3 fixed passenger records
(each with a generated bag id), and 5 metric rows for hours 1..5 with
counts from `np.random.randint(80, 150, size=5)`. -/
def initialize_state (src : RandomSource) : SessionState where
  baggage_queue :=
    [get_short_id (src.uuids 0), get_short_id (src.uuids 1),
     get_short_id (src.uuids 2)]
  misplaced_stack :=
    [get_short_id (src.uuids 3), get_short_id (src.uuids 4)]
  passenger_db :=
    [("PAX-001", ⟨"John Doe", "UA123", "SFO", get_short_id (src.uuids 5)⟩),
     ("PAX-002", ⟨"Jane Smith", "DL456", "JFK", get_short_id (src.uuids 6)⟩),
     ("PAX-003", ⟨"Peter Jones", "AA789", "LAX", get_short_id (src.uuids 7)⟩)]
  efficiency_data :=
    (List.range 5).map (fun i => (i + 1, randint 80 150 (src.rands i)))

/-- Embeds `queue.enqueue` (src/app.py line 66):
`st.session_state.baggage_queue.append(new_bag_id)`. -/
def enqueue (s : SessionState) (bagId : String) : SessionState :=
  { s with baggage_queue := s.baggage_queue ++ [bagId] }

/-- Embeds `queue.dequeue` (src/app.py lines 71-76): if the queue is non-empty,
`pop(0)` removes and returns the front element; otherwise a warning is
shown and nothing is mutated. -/
def dequeue (s : SessionState) : Except ErrorKind String × SessionState :=
  match s.baggage_queue with
  | [] => (Except.error ErrorKind.EmptyContainer, s)
  | x :: rest => (Except.ok x, { s with baggage_queue := rest })

/-- Embeds `stack.push` (src/app.py line 108):
`st.session_state.misplaced_stack.append(misplaced_bag_id)`. -/
def push (s : SessionState) (bagId : String) : SessionState :=
  { s with misplaced_stack := s.misplaced_stack ++ [bagId] }

/-- Embeds `stack.pop` (src/app.py lines 113-118): if the stack is non-empty,
`pop()` removes and returns the last element; otherwise a warning is
shown and nothing is mutated. -/
def pop (s : SessionState) : Except ErrorKind String × SessionState :=
  match s.misplaced_stack.getLast? with
  | none => (Except.error ErrorKind.EmptyContainer, s)
  | some x => (Except.ok x, { s with misplaced_stack := s.misplaced_stack.dropLast })

/-- Embeds `lookup.find` (src/app.py lines 152-158): membership test on
`passenger_db`, returning the record on success and an error signal when
the key is absent. Never mutates the table. -/
def find (s : SessionState) (key : String) : Except ErrorKind PassengerRecord :=
  match List.lookup key s.passenger_db with
  | some r => Except.ok r
  | none => Except.error ErrorKind.KeyNotFound

/-- Embeds `lookup.all_keys` (src/app.py line 149):
`list(st.session_state.passenger_db.keys())`, used to populate the
selection control. -/
def all_keys (s : SessionState) : List String :=
  s.passenger_db.map Prod.fst

/-- Embeds `df['Hour'].max()` (src/app.py line 181) over the embedded rows. -/
def maxHour (rows : List (Nat × Nat)) : Nat :=
  (rows.map Prod.fst).foldr max 0

/-- Embeds `series.advance` (src/app.py lines 180-193): `new_hour = max(Hour) + 1`,
`new_processed_count = np.random.randint(80, 150)`, appended as a new row;
the new point is also returned (shown in the success message). -/
def advance (s : SessionState) (r : Nat) : (Nat × Nat) × SessionState :=
  let newHour := maxHour s.efficiency_data + 1
  let newCount := randint 80 150 r
  ((newHour, newCount),
   { s with efficiency_data := s.efficiency_data ++ [(newHour, newCount)] })

/-- Embeds `queue.snapshot` (src/app.py lines 79-90): the queue rendered
front-to-back. -/
def queueSnapshot (s : SessionState) : List String := s.baggage_queue

/-- Embeds `stack.snapshot` (src/app.py lines 121-131): the stack rendered
top-first, i.e. `reversed(misplaced_stack)`. -/
def stackSnapshot (s : SessionState) : List String := s.misplaced_stack.reverse

/-- Embeds `lookup.list` (src/app.py line 162): the full mapping dump. -/
def tableSnapshot (s : SessionState) : List (String × PassengerRecord) :=
  s.passenger_db

/-- Embeds `series.snapshot` (src/app.py line 196): the full ordered series. -/
def seriesSnapshot (s : SessionState) : List (Nat × Nat) := s.efficiency_data

/-- The actions exposed by the pages: every user-triggerable operation of
the simulation core (src/app.py, the button handlers and the read-only
renderings). -/
inductive Action where
  | queueAdd (bagId : String)
  | queueProcess
  | stackPush (bagId : String)
  | stackPop
  | lookupFind (key : String)
  | lookupList
  | seriesAdvance (r : Nat)
  | queueView
  | stackView
  | seriesView
deriving DecidableEq, Repr

/-- The state transition of one exposed action. Read actions
(`lookupFind`, `lookupList`, and the three views) do not mutate any
store; failed removals leave the state unchanged. -/
def step (a : Action) (s : SessionState) : SessionState :=
  match a with
  | Action.queueAdd b => enqueue s b
  | Action.queueProcess => (dequeue s).2
  | Action.stackPush b => push s b
  | Action.stackPop => (pop s).2
  | Action.lookupFind _ => s
  | Action.lookupList => s
  | Action.seriesAdvance r => (advance s r).2
  | Action.queueView => s
  | Action.stackView => s
  | Action.seriesView => s

/-- Running a whole sequence of exposed actions. -/
def run (acts : List Action) (s : SessionState) : SessionState :=
  acts.foldl (fun st a => step a st) s

/-- Repeatedly dequeue, collecting the returned identifiers in order
(`n` is a fuel bound; draining stops at the first `EmptyContainer`). -/
def drain : Nat → SessionState → List String
  | 0, _ => []
  | n + 1, s =>
    match dequeue s with
    | (Except.ok x, s2) => x :: drain n s2
    | (Except.error _, _) => []

/-! ### Helper lemmas -/

theorem hexDigits_length (k : Nat) : ∀ n : Nat, (hexDigits k n).length = k := by
  induction k with
  | zero => intro n; rfl
  | succ k ih => intro n; simp [hexDigits, ih]

theorem hexDigits_mem (k : Nat) : ∀ (n : Nat) (c : Char), c ∈ hexDigits k n →
    ∃ d, d < 16 ∧ c = hexChar d := by
  induction k with
  | zero => intro n c hc; simp [hexDigits] at hc
  | succ k ih =>
    intro n c hc
    simp only [hexDigits, List.mem_append, List.mem_singleton] at hc
    rcases hc with h | h
    · exact ih _ _ h
    · exact ⟨n % 16, Nat.mod_lt _ (by norm_num), h⟩

theorem hexChar_toUpper_alnum (d : Nat) (hd : d < 16) :
    isUpperAlnum (Char.toUpper (hexChar d)) = true := by
  have h : ∀ i : Fin 16, isUpperAlnum (Char.toUpper (hexChar i.val)) = true := by decide
  exact h ⟨d, hd⟩

theorem drain_of_le : ∀ (n : Nat) (s : SessionState), s.baggage_queue.length ≤ n →
    drain n s = s.baggage_queue := by
  intro n
  induction n with
  | zero =>
    intro s h
    have hq : s.baggage_queue = [] :=
      List.eq_nil_of_length_eq_zero (Nat.le_zero.mp h)
    rw [hq]; rfl
  | succ n ih =>
    intro s h
    obtain ⟨q, ms, db, eff⟩ := s
    cases q with
    | nil => rfl
    | cons x rest =>
      show x :: drain n ⟨rest, ms, db, eff⟩ = x :: rest
      rw [ih ⟨rest, ms, db, eff⟩ (by simp at h ⊢; omega)]

theorem pop_concat (s : SessionState) (l : List String) (x : String)
    (h : s.misplaced_stack = l ++ [x]) :
    pop s = (Except.ok x, { s with misplaced_stack := l }) := by
  simp [pop, h]

theorem le_foldr_max (l : List Nat) (x : Nat) (hx : x ∈ l) : x ≤ l.foldr max 0 := by
  induction l with
  | nil => simp at hx
  | cons a tl ih =>
    rcases List.mem_cons.mp hx with h | h
    · subst h; exact Nat.le_max_left _ _
    · exact le_trans (ih h) (Nat.le_max_right _ _)

theorem randint_bounds (lo hi r : Nat) (h : lo < hi) :
    lo ≤ randint lo hi r ∧ randint lo hi r < hi := by
  unfold randint
  have hm : r % (hi - lo) < hi - lo := Nat.mod_lt _ (by omega)
  omega

theorem seed_rows (src : RandomSource) :
    (initialize_state src).efficiency_data =
      [(1, randint 80 150 (src.rands 0)), (2, randint 80 150 (src.rands 1)),
       (3, randint 80 150 (src.rands 2)), (4, randint 80 150 (src.rands 3)),
       (5, randint 80 150 (src.rands 4))] := rfl

theorem seed_hours (src : RandomSource) :
    (initialize_state src).efficiency_data.map Prod.fst = [1, 2, 3, 4, 5] := by
  rw [seed_rows]; rfl

theorem advance_rows (s : SessionState) (r : Nat) :
    (advance s r).2.efficiency_data =
      s.efficiency_data ++ [(maxHour s.efficiency_data + 1, randint 80 150 r)] := rfl

/-- Iterates `series.advance` `n` times, feeding successive raw random
draws from `rs`. -/
def advanceN : Nat → (Nat → Nat) → SessionState → SessionState
  | 0, _, s => s
  | n + 1, rs, s => advanceN n (fun i => rs (i + 1)) (advance s (rs 0)).2

theorem advance_chain (s : SessionState) (r : Nat)
    (h : List.Chain' (· < ·) (s.efficiency_data.map Prod.fst)) :
    List.Chain' (· < ·) ((advance s r).2.efficiency_data.map Prod.fst) := by
  rw [advance_rows, List.map_append, List.chain'_append]
  refine ⟨h, List.chain'_singleton _, ?_⟩
  intro x hx y hy
  simp only [List.map_cons, List.map_nil, List.head?_cons, Option.mem_def,
    Option.some.injEq] at hy
  subst hy
  have hxm : x ∈ s.efficiency_data.map Prod.fst := by
    rcases List.mem_getLast?_eq_getLast hx with ⟨hne, rfl⟩
    exact List.getLast_mem hne
  have hle : x ≤ maxHour s.efficiency_data := le_foldr_max _ x hxm
  omega

theorem advanceN_chain : ∀ (n : Nat) (rs : Nat → Nat) (s : SessionState),
    List.Chain' (· < ·) (s.efficiency_data.map Prod.fst) →
    List.Chain' (· < ·) ((advanceN n rs s).efficiency_data.map Prod.fst) := by
  intro n
  induction n with
  | zero => intro rs s h; exact h
  | succ n ih => intro rs s h; exact ih _ _ (advance_chain s (rs 0) h)

/-! ### Claims -/

/-- Claim C1, counterexample: on the non-empty queue state `["C"]`, after
`enqueue "A"; enqueue "B"`, the first dequeue yields `"C"`, not `"A"`, so
"two dequeues yield A then B on any queue state" is false as stated. -/
theorem C1_fifo_counterexample :
    (dequeue (enqueue (enqueue ⟨["C"], [], [], []⟩ "A") "B")).1 = Except.ok "C" ∧
    "C" ≠ "A" :=
  ⟨rfl, by decide⟩

/-- Claim C1 (amended): enqueue appends at the back and dequeue always takes
position 0, so after `enqueue A; enqueue B` on any queue state, draining the
queue returns the prior contents followed by `A` then `B` (FIFO); on the
empty queue, two dequeues yield exactly `A` then `B`. -/
theorem C1_fifo_amended (s : SessionState) (a b : String) :
    (enqueue (enqueue s a) b).baggage_queue = s.baggage_queue ++ [a, b] ∧
    drain (s.baggage_queue.length + 2) (enqueue (enqueue s a) b)
      = s.baggage_queue ++ [a, b] ∧
    (s.baggage_queue = [] →
      (dequeue (enqueue (enqueue s a) b)).1 = Except.ok a ∧
      (dequeue (dequeue (enqueue (enqueue s a) b)).2).1 = Except.ok b) := by
  have hq : (enqueue (enqueue s a) b).baggage_queue = s.baggage_queue ++ [a, b] := by
    simp [enqueue]
  refine ⟨hq, ?_, ?_⟩
  · rw [drain_of_le _ _ (by simp [hq]), hq]
  · intro hnil
    obtain ⟨q, ms, db, eff⟩ := s
    change q = [] at hnil
    subst hnil
    exact ⟨rfl, rfl⟩

/-- Claim C1 witness: the amended statement at the empty queue and the
identifiers "A", "B". -/
theorem C1_fifo_amended_witness :
    (dequeue (enqueue (enqueue (⟨[], [], [], []⟩ : SessionState) "A") "B")).1
      = Except.ok "A" ∧
    (dequeue (dequeue (enqueue (enqueue (⟨[], [], [], []⟩ : SessionState) "A") "B")).2).1
      = Except.ok "B" :=
  (C1_fifo_amended ⟨[], [], [], []⟩ "A" "B").2.2 rfl

/-- Claim C2: push appends at the end and pop takes the last element, so
after `push A; push B` on any stack state, two pops yield `B` then `A`
(LIFO). -/
theorem C2_lifo (s : SessionState) (a b : String) :
    (push (push s a) b).misplaced_stack = s.misplaced_stack ++ [a, b] ∧
    (pop (push (push s a) b)).1 = Except.ok b ∧
    (pop (pop (push (push s a) b)).2).1 = Except.ok a := by
  have h1 : (push (push s a) b).misplaced_stack
      = (s.misplaced_stack ++ [a]) ++ [b] := by
    simp [push]
  have hpop1 := pop_concat _ _ _ h1
  have h2 : ((pop (push (push s a) b)).2).misplaced_stack
      = s.misplaced_stack ++ [a] := by
    rw [hpop1]
  have hpop2 := pop_concat _ _ _ h2
  refine ⟨by simp [push], by rw [hpop1], by rw [hpop2]⟩

/-- Claim C3: dequeue on any state whose queue is empty, and pop on any
state whose stack is empty, fail with the EmptyContainer signal and leave
the whole state unchanged — regardless of what the other stores hold. -/
theorem C3_empty_removal (s t : SessionState) (hq : s.baggage_queue = [])
    (hs : t.misplaced_stack = []) :
    dequeue s = (Except.error ErrorKind.EmptyContainer, s) ∧
    pop t = (Except.error ErrorKind.EmptyContainer, t) := by
  constructor
  · simp [dequeue, hq]
  · simp [pop, hs]

/-- Claim C3 witness: a drained queue with the stack still holding its two
reports, and a drained stack with the queue still holding its three bags. -/
theorem C3_empty_removal_witness :
    dequeue ⟨[], ["X1", "X2"], [], []⟩
      = (Except.error ErrorKind.EmptyContainer,
         (⟨[], ["X1", "X2"], [], []⟩ : SessionState)) ∧
    pop ⟨["B1", "B2", "B3"], [], [], []⟩
      = (Except.error ErrorKind.EmptyContainer,
         (⟨["B1", "B2", "B3"], [], [], []⟩ : SessionState)) :=
  C3_empty_removal ⟨[], ["X1", "X2"], [], []⟩ ⟨["B1", "B2", "B3"], [], [], []⟩
    rfl rfl

/-- Claim C4: on the seeded series (hours 1..5) one advance returns hour 6
with count in [80, 150) and appends that point; on any state the appended
hour is the previous maximum hour plus 1, and any number of repeated calls
keeps the hours strictly increasing. -/
theorem C4_series_advance (src : RandomSource) (r : Nat) (s : SessionState)
    (n : Nat) (rs : Nat → Nat)
    (h : List.Chain' (· < ·) (s.efficiency_data.map Prod.fst)) :
    (advance (initialize_state src) r).1.1 = 6 ∧
    80 ≤ (advance (initialize_state src) r).1.2 ∧
    (advance (initialize_state src) r).1.2 < 150 ∧
    (advance (initialize_state src) r).2.efficiency_data
      = (initialize_state src).efficiency_data ++ [(advance (initialize_state src) r).1] ∧
    (advance s r).1.1 = maxHour s.efficiency_data + 1 ∧
    List.Chain' (· < ·) ((advance s r).2.efficiency_data.map Prod.fst) ∧
    List.Chain' (· < ·)
      ((advanceN n rs (initialize_state src)).efficiency_data.map Prod.fst) := by
  have hmax : maxHour (initialize_state src).efficiency_data = 5 := by
    unfold maxHour
    rw [seed_hours]
    decide
  have hseed : List.Chain' (· < ·)
      ((initialize_state src).efficiency_data.map Prod.fst) := by
    rw [seed_hours]
    norm_num [List.chain'_cons, List.chain'_singleton]
  refine ⟨?_, ?_, ?_, rfl, rfl, advance_chain s r h, advanceN_chain n rs _ hseed⟩
  · show maxHour (initialize_state src).efficiency_data + 1 = 6
    rw [hmax]
  · exact (randint_bounds 80 150 r (by norm_num)).1
  · exact (randint_bounds 80 150 r (by norm_num)).2

/-- Claim C4 witness: a concrete random source, raw draw 0, the empty
series state, and zero repeated calls. -/
theorem C4_series_advance_witness :
    (advance (initialize_state ⟨fun _ => 0, fun _ => 0⟩) 0).1.1 = 6 ∧
    80 ≤ (advance (initialize_state ⟨fun _ => 0, fun _ => 0⟩) 0).1.2 ∧
    (advance (initialize_state ⟨fun _ => 0, fun _ => 0⟩) 0).1.2 < 150 ∧
    (advance (initialize_state ⟨fun _ => 0, fun _ => 0⟩) 0).2.efficiency_data
      = (initialize_state ⟨fun _ => 0, fun _ => 0⟩).efficiency_data
        ++ [(advance (initialize_state ⟨fun _ => 0, fun _ => 0⟩) 0).1] ∧
    (advance (⟨[], [], [], []⟩ : SessionState) 0).1.1
      = maxHour (⟨[], [], [], []⟩ : SessionState).efficiency_data + 1 ∧
    List.Chain' (· < ·)
      ((advance (⟨[], [], [], []⟩ : SessionState) 0).2.efficiency_data.map Prod.fst) ∧
    List.Chain' (· < ·)
      ((advanceN 0 (fun _ => 0)
        (initialize_state ⟨fun _ => 0, fun _ => 0⟩)).efficiency_data.map Prod.fst) :=
  C4_series_advance ⟨fun _ => 0, fun _ => 0⟩ 0 ⟨[], [], [], []⟩ 0 (fun _ => 0)
    (by simp)

/-- Claim C5: on a freshly seeded session, `find "PAX-001"` returns the
record with flight "UA123" and destination "SFO", `find "PAX-999"` fails
with KeyNotFound, and neither call changes the session state. -/
theorem C5_lookup_seeded (src : RandomSource) :
    find (initialize_state src) "PAX-001"
      = Except.ok ⟨"John Doe", "UA123", "SFO", get_short_id (src.uuids 5)⟩ ∧
    (∃ rec : PassengerRecord,
      find (initialize_state src) "PAX-001" = Except.ok rec ∧
      rec.flight = "UA123" ∧ rec.destination = "SFO") ∧
    find (initialize_state src) "PAX-999" = Except.error ErrorKind.KeyNotFound ∧
    step (Action.lookupFind "PAX-001") (initialize_state src) = initialize_state src ∧
    step (Action.lookupFind "PAX-999") (initialize_state src) = initialize_state src := by
  have hfind : find (initialize_state src) "PAX-001"
      = Except.ok ⟨"John Doe", "UA123", "SFO", get_short_id (src.uuids 5)⟩ := rfl
  exact ⟨hfind, ⟨_, hfind, rfl, rfl⟩, rfl, rfl, rfl⟩

/-- Claim C6: session initialization reproduces exactly the seed layout:
3 generated queue ids, 2 generated stack ids, the 3 fixed passenger keys,
and 5 metric points for hours 1..5 with counts in [80, 150). -/
theorem C6_init_seed (src : RandomSource) :
    (initialize_state src).baggage_queue
      = [get_short_id (src.uuids 0), get_short_id (src.uuids 1),
         get_short_id (src.uuids 2)] ∧
    (initialize_state src).misplaced_stack
      = [get_short_id (src.uuids 3), get_short_id (src.uuids 4)] ∧
    (initialize_state src).baggage_queue.length = 3 ∧
    (initialize_state src).misplaced_stack.length = 2 ∧
    all_keys (initialize_state src) = ["PAX-001", "PAX-002", "PAX-003"] ∧
    (initialize_state src).passenger_db.length = 3 ∧
    (initialize_state src).efficiency_data.map Prod.fst = [1, 2, 3, 4, 5] ∧
    ∀ p ∈ (initialize_state src).efficiency_data, 80 ≤ p.2 ∧ p.2 < 150 := by
  refine ⟨rfl, rfl, rfl, rfl, rfl, rfl, seed_hours src, ?_⟩
  intro p hp
  rw [seed_rows] at hp
  simp only [List.mem_cons, List.not_mem_nil, or_false] at hp
  rcases hp with h | h | h | h | h <;> subst h <;>
    exact randint_bounds 80 150 _ (by norm_num)

/-- Claim C6 witness: the first seeded metric point of a concrete source
has its count in range. -/
theorem C6_init_seed_witness :
    80 ≤ randint 80 150 0 ∧ randint 80 150 0 < 150 :=
  (C6_init_seed ⟨fun _ => 0, fun _ => 0⟩).2.2.2.2.2.2.2 (1, randint 80 150 0)
    (by rw [seed_rows]; exact List.mem_cons_self _ _)

theorem step_passenger_db (a : Action) (s : SessionState) :
    (step a s).passenger_db = s.passenger_db := by
  cases a
  case queueProcess =>
    rcases h : s.baggage_queue with _ | ⟨x, rest⟩ <;> simp [step, dequeue, h]
  case stackPop =>
    rcases h : s.misplaced_stack.getLast? with _ | x <;> simp [step, pop, h]
  all_goals rfl

/-- Claim C7: no exposed action mutates the lookup table store — over any
sequence of queue, stack, lookup, or series actions the passenger table
(key set and records alike) is unchanged. -/
theorem C7_table_frame (acts : List Action) (s : SessionState) :
    (run acts s).passenger_db = s.passenger_db := by
  induction acts generalizing s with
  | nil => rfl
  | cons a tl ih =>
    show (run tl (step a s)).passenger_db = s.passenger_db
    rw [ih (step a s), step_passenger_db]

/-- Claim C8: read operations are side-effect free: the view actions,
`lookup.list`, and `lookup.find` (on any key, hit or miss) leave the state
unchanged, and snapshots taken before and after zero actions agree. -/
theorem C8_reads_pure (s : SessionState) (k : String) :
    step Action.queueView s = s ∧ step Action.stackView s = s ∧
    step Action.seriesView s = s ∧ step Action.lookupList s = s ∧
    step (Action.lookupFind k) s = s ∧
    queueSnapshot (run [] s) = queueSnapshot s ∧
    stackSnapshot (run [] s) = stackSnapshot s ∧
    tableSnapshot (run [] s) = tableSnapshot s ∧
    seriesSnapshot (run [] s) = seriesSnapshot s :=
  ⟨rfl, rfl, rfl, rfl, rfl, rfl, rfl, rfl, rfl⟩

/-- Claim C9: every generated identifier is exactly 8 characters long and
every character is upper-case alphanumeric, for every drawn value. -/
theorem C9_short_id (n : Nat) :
    (get_short_id n).length = 8 ∧
    ∀ c ∈ (get_short_id n).data, isUpperAlnum c = true := by
  have htake : (uuidChars n).take 8 = hexDigits 8 (n / 16 ^ 24) := by
    unfold uuidChars
    exact List.take_left' (hexDigits_length 8 _)
  constructor
  · show (((uuidChars n).take 8).map Char.toUpper).length = 8
    rw [List.length_map, htake, hexDigits_length]
  · intro c hc
    have hc2 : c ∈ ((uuidChars n).take 8).map Char.toUpper := hc
    rw [htake] at hc2
    rcases List.mem_map.mp hc2 with ⟨c0, hc0, rfl⟩
    rcases hexDigits_mem 8 _ c0 hc0 with ⟨d, hd, rfl⟩
    exact hexChar_toUpper_alnum d hd

/-- Claim C9 witness: the identifier generated from the drawn value 0. -/
theorem C9_short_id_witness :
    (get_short_id 0).length = 8 ∧ isUpperAlnum '0' = true :=
  ⟨(C9_short_id 0).1, (C9_short_id 0).2 '0' (by decide)⟩

theorem lookup_of_mem_keys :
    ∀ (db : List (String × PassengerRecord)) (k : String),
    k ∈ db.map Prod.fst → ∃ r, List.lookup k db = some r := by
  intro db
  induction db with
  | nil => intro k hk; simp at hk
  | cons p tl ih =>
    intro k hk
    obtain ⟨a, b⟩ := p
    by_cases hka : k = a
    · subst hka
      exact ⟨b, by simp [List.lookup]⟩
    · simp only [List.map_cons, List.mem_cons] at hk
      rcases hk with h | h
      · exact absurd h hka
      · rcases ih k h with ⟨r, hr⟩
        have hbeq : (k == a) = false := beq_eq_false_iff_ne.mpr hka
        exact ⟨r, by simp [List.lookup, hbeq, hr]⟩

/-- Claim C10: through the exposed interface the KeyNotFound branch is
unreachable: every key offered by the selection control (populated from
`all_keys`) makes `find` succeed. -/
theorem C10_error_unreachable (s : SessionState) (k : String)
    (hk : k ∈ all_keys s) : ∃ rec, find s k = Except.ok rec := by
  rcases lookup_of_mem_keys s.passenger_db k hk with ⟨r, hr⟩
  exact ⟨r, by simp [find, hr]⟩

/-- Claim C10 witness: the seeded table and its first key. -/
theorem C10_error_unreachable_witness :
    ∃ rec, find (initialize_state ⟨fun _ => 0, fun _ => 0⟩) "PAX-001"
      = Except.ok rec :=
  C10_error_unreachable (initialize_state ⟨fun _ => 0, fun _ => 0⟩) "PAX-001"
    (by simp [all_keys, initialize_state])

end Baggage
